import Mathlib

/-!
# Verification of the migration-script pipeline

A shallow embedding of the record-level migration pipeline of this
repository (UserProfileReport.js, AttendanceReport.js,
CohortSummaryReport.js and the course/assessment migration scripts),
together with theorems settling the specification claims about it.

JavaScript runtime values are modelled by `JSValue` (numbers as integers
plus an explicit NaN), database rows reaching a writer as explicit
records of `JSValue` fields, destination tables either as key-indexed
maps (tables with a primary key, written via upsert) or as row lists
(tables without a uniqueness constraint, written via delete-then-insert),
and every fallible external call as an explicit outcome argument
(`Except` / `ApiOutcome`), so the catch-and-default behaviour of the
source is a total Lean function of that outcome.
-/

namespace MigrationScript

/-- Model of a JavaScript runtime value as handled by the migration
scripts. Numbers are modelled as integers plus an explicit NaN; objects
other than arrays do not occur as attribute-store values. -/
inductive JSValue : Type where
  | null : JSValue
  | undef : JSValue
  | bool (b : Bool) : JSValue
  | num (n : Int) : JSValue
  | nan : JSValue
  | str (s : String) : JSValue
  | arr (xs : List JSValue) : JSValue

/-- JavaScript falsiness: `!value` is true exactly on null, undefined,
false, 0, NaN and the empty string. -/
def jsFalsy : JSValue → Bool
  | JSValue.null => true
  | JSValue.undef => true
  | JSValue.bool b => !b
  | JSValue.num n => n == 0
  | JSValue.nan => true
  | JSValue.str s => s.data.isEmpty
  | JSValue.arr _ => false

/-- JavaScript `a || b`. -/
def jsOr (a b : JSValue) : JSValue := if jsFalsy a then b else a

def JSValue.isUndef : JSValue → Bool
  | JSValue.undef => true
  | _ => false

def JSValue.isNull : JSValue → Bool
  | JSValue.null => true
  | _ => false

def JSValue.isNum : JSValue → Bool
  | JSValue.num _ => true
  | _ => false

/-- Observe the string payload of a JSValue, if any. -/
def JSValue.strVal : JSValue → Option String
  | JSValue.str s => some s
  | _ => none

/-- The whitespace characters recognised by JavaScript string-to-number
coercion, `parseInt` and `trim` (ASCII subset plus NBSP). -/
def jsWhitespaceChar (c : Char) : Bool :=
  c == ' ' || c == '\t' || c == '\n' || c == '\r' ||
  c == Char.ofNat 11 || c == Char.ofNat 12 || c == Char.ofNat 0xA0

def takeDigits : List Char → List Char × List Char
  | [] => ([], [])
  | c :: cs =>
    if c.isDigit then
      let p := takeDigits cs
      (c :: p.1, p.2)
    else ([], c :: cs)

def digitsToNat (ds : List Char) : Nat :=
  ds.foldl (fun a c => a * 10 + (c.toNat - 48)) 0

/-- Strip one optional leading sign; returns (isNegative, rest). -/
def stripSign : List Char → Bool × List Char
  | '-' :: cs => (true, cs)
  | '+' :: cs => (false, cs)
  | cs => (false, cs)

/-- JavaScript `parseInt(s, 10)`: skip leading whitespace, optional sign,
then the longest leading digit run; NaN when there is no digit. -/
def parseIntJS (s : String) : JSValue :=
  let cs := s.data.dropWhile jsWhitespaceChar
  let p := stripSign cs
  let d := (takeDigits p.2).1
  if d.isEmpty then JSValue.nan
  else JSValue.num (if p.1 then -(digitsToNat d : Int) else (digitsToNat d : Int))

/-- First contiguous digit run of a string: JavaScript `s.match(/\d+/)`. -/
def firstDigitRun : List Char → Option (List Char)
  | [] => none
  | c :: cs =>
    if c.isDigit then some (c :: (takeDigits cs).1)
    else firstDigitRun cs

def isHexDigitChar (c : Char) : Bool :=
  c.isDigit || (decide ('a' ≤ c) && decide (c ≤ 'f')) || (decide ('A' ≤ c) && decide (c ≤ 'F'))

def isBinaryDigitChar (c : Char) : Bool := c == '0' || c == '1'

def isOctalDigitChar (c : Char) : Bool := decide ('0' ≤ c) && decide (c ≤ '7')

/-- Exponent part of a decimal numeric string: empty, or e/E, optional
sign, one or more digits, end of string. -/
def expPartOk : List Char → Bool
  | [] => true
  | c :: cs =>
    if c == 'e' || c == 'E' then
      let p := stripSign cs
      let q := takeDigits p.2
      (!q.1.isEmpty) && q.2.isEmpty
    else false

/-- Unsigned decimal numeric string: digits, optional fraction, optional
exponent, as accepted by JavaScript `Number(...)`. -/
def decimalOk (cs : List Char) : Bool :=
  let p := takeDigits cs
  match p.2 with
  | [] => !p.1.isEmpty
  | '.' :: r2 =>
    let q := takeDigits r2
    ((!p.1.isEmpty) || (!q.1.isEmpty)) && expPartOk q.2
  | r1 => (!p.1.isEmpty) && expPartOk r1

def signedDecimalOk (cs : List Char) : Bool :=
  let p := stripSign cs
  (p.2 == "Infinity".data) || decimalOk p.2

def trimJSList (cs : List Char) : List Char :=
  ((cs.dropWhile jsWhitespaceChar).reverse.dropWhile jsWhitespaceChar).reverse

/-- Whether JavaScript `isNaN(s)` holds for a string `s`, i.e. whether
`Number(s)` is NaN: the trimmed string is neither empty, nor a signed
decimal/Infinity literal, nor an unsigned hex/binary/octal literal. -/
def strNumberIsNaN (s : String) : Bool :=
  match trimJSList s.data with
  | [] => false
  | '0' :: x :: rest =>
    if x == 'x' || x == 'X' then !((!rest.isEmpty) && rest.all isHexDigitChar)
    else if x == 'b' || x == 'B' then !((!rest.isEmpty) && rest.all isBinaryDigitChar)
    else if x == 'o' || x == 'O' then !((!rest.isEmpty) && rest.all isOctalDigitChar)
    else !(signedDecimalOk ('0' :: x :: rest))
  | cs => !(signedDecimalOk cs)

/-- Model of extractIdFromValue from UserProfileReport.js: best-effort extraction
of an integer identifier from an attribute-store value. Falsy values map
to null; numbers are returned as-is; a non-empty array contributes its
first element when that is a number or a non-NaN numeric string; a string
contributes its first digit run, or is parsed directly when it is numeric
without containing a digit run; everything else maps to null. -/
def extractIdFromValue (value : JSValue) : JSValue :=
  if jsFalsy value then JSValue.null
  else
    match value with
    | JSValue.num n => JSValue.num n
    | JSValue.arr (firstValue :: _) =>
      (match firstValue with
       | JSValue.num m => JSValue.num m
       | JSValue.nan => JSValue.nan
       | JSValue.str fs => if !(strNumberIsNaN fs) then parseIntJS fs else JSValue.null
       | _ => JSValue.null)
    | JSValue.str s =>
      (match firstDigitRun s.data with
       | some run => JSValue.num ((digitsToNat run : Nat) : Int)
       | none => if !(strNumberIsNaN s) then parseIntJS s else JSValue.null)
    | _ => JSValue.null

/-- Full-name construction for migrateUserProfileReports: the extraction
query CONCATs firstName, a space, middleName, a space, lastName, each
COALESCEd to the empty string, and processUser applies JavaScript trim to
the concatenation. -/
def buildFullName (firstName middleName lastName : String) : String :=
  String.mk (trimJSList (firstName ++ " " ++ middleName ++ " " ++ lastName).data)

/-- The fields of an API content payload read by the two transformers. A
field that is absent from the payload holds `JSValue.undef`. -/
structure ApiContent : Type where
  identifier : JSValue
  name : JSValue
  channel : JSValue
  language : JSValue
  program : JSValue
  primaryUser : JSValue
  targetAgeGroup : JSValue
  keywords : JSValue
  description : JSValue
  subject : JSValue
  domain : JSValue
  subDomain : JSValue
  assessmentType : JSValue
  status : JSValue
  framework : JSValue

/-- The empty object `{}`: every field access yields undefined. -/
def emptyContent : ApiContent :=
  { identifier := JSValue.undef, name := JSValue.undef, channel := JSValue.undef
  , language := JSValue.undef, program := JSValue.undef, primaryUser := JSValue.undef
  , targetAgeGroup := JSValue.undef, keywords := JSValue.undef, description := JSValue.undef
  , subject := JSValue.undef, domain := JSValue.undef, subDomain := JSValue.undef
  , assessmentType := JSValue.undef, status := JSValue.undef, framework := JSValue.undef }

structure CourseEntity : Type where
  courseDoId : JSValue
  courseName : JSValue
  channel : JSValue
  language : JSValue
  program : JSValue
  primaryUser : JSValue
  targetAgeGroup : JSValue
  keywords : JSValue
  details : ApiContent

/-- mapContentToCourseEntity from the course migration script: identifier,
name and channel are copied as-is; the five list-shaped fields get
`|| []`; details keeps the whole payload. -/
def mapContentToCourseEntity (content : ApiContent) : CourseEntity :=
  { courseDoId := content.identifier
  , courseName := content.name
  , channel := content.channel
  , language := jsOr content.language (JSValue.arr [])
  , program := jsOr content.program (JSValue.arr [])
  , primaryUser := jsOr content.primaryUser (JSValue.arr [])
  , targetAgeGroup := jsOr content.targetAgeGroup (JSValue.arr [])
  , keywords := jsOr content.keywords (JSValue.arr [])
  , details := content }

/-- Value returned by fetchApiData: the first QuestionSet element, the
empty object `{}` (error or missing payload field), or undefined
(QuestionSet present but empty, making `QuestionSet[0]` undefined). -/
inductive FetchResult : Type where
  | emptyObj : FetchResult
  | undef : FetchResult
  | content (c : ApiContent) : FetchResult

/-- Outcome of an awaited axios call: either the promise rejected (network
failure or non-2xx status) or a response body was received. -/
inductive ApiOutcome (α : Type) : Type where
  | thrown (msg : String) : ApiOutcome α
  | ok (data : α) : ApiOutcome α

structure SearchResult : Type where
  QuestionSet : Option (List ApiContent)

structure SearchResponseData : Type where
  result : Option SearchResult

/-- fetchApiData from the assessment migration script: POST search lookup.
A falsy courseId short-circuits to `{}`; a thrown request, a missing
`result` field or a missing `QuestionSet` field (each a TypeError caught
by the catch block) yields `{}`; an otherwise well-formed response yields
`QuestionSet[0]`, which is undefined when QuestionSet is empty. -/
def fetchApiData (courseId : JSValue) (outcome : ApiOutcome SearchResponseData) : FetchResult :=
  if jsFalsy courseId then FetchResult.emptyObj
  else
    match outcome with
    | ApiOutcome.thrown _ => FetchResult.emptyObj
    | ApiOutcome.ok d =>
      match d.result with
      | none => FetchResult.emptyObj
      | some r =>
        match r.QuestionSet with
        | none => FetchResult.emptyObj
        | some [] => FetchResult.undef
        | some (c :: _) => FetchResult.content c

structure HierarchyResult : Type where
  content : Option ApiContent

structure HierarchyResponseData : Type where
  result : Option HierarchyResult

/-- fetchCourseData from the course migration script: GET hierarchy
lookup; returns the nested content when `result && result.content` holds
and `{}` otherwise (also on a thrown request or a falsy courseId). -/
def fetchCourseData (courseId : JSValue) (outcome : ApiOutcome HierarchyResponseData) : ApiContent :=
  if jsFalsy courseId then emptyContent
  else
    match outcome with
    | ApiOutcome.thrown _ => emptyContent
    | ApiOutcome.ok d =>
      match d.result with
      | none => emptyContent
      | some r =>
        match r.content with
        | none => emptyContent
        | some c => c

/-- safeQuery from UserProfileReport.js: runs a query and returns its
rows, or the supplied default when the query throws. -/
def safeQuery {α : Type} (result : Except String α) (defaultValue : α) : α :=
  match result with
  | Except.ok rows => rows
  | Except.error _ => defaultValue

/-- getLocationName from UserProfileReport.js / CohortSummaryReport.js:
returns null for a falsy id, a falsy extracted id, a thrown query, or an
empty row set; otherwise the first row's name column (itself possibly
null). -/
def getLocationName (id : JSValue) (outcome : Except String (List (Option String))) : Option String :=
  if jsFalsy id then none
  else if jsFalsy (extractIdFromValue id) then none
  else
    match outcome with
    | Except.error _ => none
    | Except.ok [] => none
    | Except.ok (r :: _) => r

/-- Optional-chained field read `apiData?.f`: undefined when the receiver
is `{}` (no such property) or undefined. -/
def fetchField (a : FetchResult) (f : ApiContent → JSValue) : JSValue :=
  match a with
  | FetchResult.content c => f c
  | _ => JSValue.undef

/-- Optional-chained index read `x?.[0]`: first array element, first
character of a string, undefined otherwise. -/
def optIndex0 : JSValue → JSValue
  | JSValue.arr (x :: _) => x
  | JSValue.str s =>
    (match s.data with
     | [] => JSValue.undef
     | c :: _ => JSValue.str (String.mk [c]))
  | _ => JSValue.undef

/-- The enrichment-derived destination columns of one assessment_tracking
row, as computed inside migrateAssessmentTrackingTable from the
fetchApiData result. -/
structure AssessmentEnrichment : Type where
  name : JSValue
  description : JSValue
  subject : JSValue
  domain : JSValue
  subDomain : JSValue
  channel : JSValue
  assessmentType : JSValue
  program : JSValue
  targetAgeGroup : JSValue
  assessmentName : JSValue
  contentLanguage : JSValue
  status : JSValue
  framework : JSValue
  summaryType : JSValue

/-- The `apiData?.f... || null` projections in the assessment insert's
values array, plus the literal summaryType. -/
def assessmentEnrichmentValues (apiData : FetchResult) : AssessmentEnrichment :=
  { name := jsOr (fetchField apiData ApiContent.name) JSValue.null
  , description := jsOr (fetchField apiData ApiContent.description) JSValue.null
  , subject := jsOr (optIndex0 (fetchField apiData ApiContent.subject)) JSValue.null
  , domain := jsOr (fetchField apiData ApiContent.domain) JSValue.null
  , subDomain := jsOr (optIndex0 (fetchField apiData ApiContent.subDomain)) JSValue.null
  , channel := jsOr (fetchField apiData ApiContent.channel) JSValue.null
  , assessmentType := jsOr (fetchField apiData ApiContent.assessmentType) JSValue.null
  , program := jsOr (optIndex0 (fetchField apiData ApiContent.program)) JSValue.null
  , targetAgeGroup := jsOr (optIndex0 (fetchField apiData ApiContent.targetAgeGroup)) JSValue.null
  , assessmentName := jsOr (fetchField apiData ApiContent.name) JSValue.null
  , contentLanguage := jsOr (optIndex0 (fetchField apiData ApiContent.language)) JSValue.null
  , status := jsOr (fetchField apiData ApiContent.status) JSValue.null
  , framework := jsOr (fetchField apiData ApiContent.framework) JSValue.null
  , summaryType := JSValue.str "assessment_tracking" }

/-- One row of the UserProfileReport destination table, without its
primary key userId. -/
structure UserProfileRecord : Type where
  username : JSValue
  fullName : JSValue
  email : JSValue
  mobile : JSValue
  dob : JSValue
  gender : JSValue
  tenantId : JSValue
  tenantName : JSValue
  status : JSValue
  createdAt : JSValue
  updatedAt : JSValue
  createdBy : JSValue
  updatedBy : JSValue
  roleId : JSValue
  roleName : JSValue
  customFields : JSValue
  cohorts : JSValue
  automaticMember : JSValue
  state : JSValue
  district : JSValue
  block : JSValue
  village : JSValue

/-- A UserProfileRecord with every column set to the same value; used to
build concrete rows. -/
def mkUserProfileRecord (v : JSValue) : UserProfileRecord :=
  { username := v, fullName := v, email := v, mobile := v, dob := v, gender := v
  , tenantId := v, tenantName := v, status := v, createdAt := v, updatedAt := v
  , createdBy := v, updatedBy := v, roleId := v, roleName := v, customFields := v
  , cohorts := v, automaticMember := v, state := v, district := v, block := v
  , village := v }

/-- Effect of the ON CONFLICT clause on one key: insert the record when
the key is absent; on conflict assign every non-key column from the new
record except createdAt and createdBy, which keep the existing row's
values. -/
def upsertMerge (old : Option UserProfileRecord) (r : UserProfileRecord) : UserProfileRecord :=
  match old with
  | none => r
  | some o => { r with createdAt := o.createdAt, createdBy := o.createdBy }

/-- insertOrUpdateUserProfileReport: INSERT .. ON CONFLICT ("userId") DO
UPDATE. The DO UPDATE SET list assigns every column except "createdAt"
($11) and "createdBy" ($13), so those two keep the existing row's values
on conflict. -/
def insertOrUpdateUserProfileReport (d : String → Option UserProfileRecord)
    (userId : String) (r : UserProfileRecord) : String → Option UserProfileRecord :=
  fun k => if k = userId then some (upsertMerge (d userId) r) else d k

/-- One row of the DailyAttendanceReport destination table, without its
primary key attendanceId. -/
structure AttendanceRecord : Type where
  userId : JSValue
  cohortId : JSValue
  context : JSValue
  date : JSValue
  status : JSValue
  metadata : JSValue
  createdAt : JSValue
  updatedAt : JSValue
  createdBy : JSValue
  updatedBy : JSValue

def mkAttendanceRecord (v : JSValue) : AttendanceRecord :=
  { userId := v, cohortId := v, context := v, date := v, status := v
  , metadata := v, createdAt := v, updatedAt := v, createdBy := v, updatedBy := v }

/-- Conflict effect for the DailyAttendanceReport upsert: all columns from
EXCLUDED except createdAt and createdBy. -/
def attendanceMerge (old : Option AttendanceRecord) (r : AttendanceRecord) : AttendanceRecord :=
  match old with
  | none => r
  | some o => { r with createdAt := o.createdAt, createdBy := o.createdBy }

/-- The upsert inside processAttendance: INSERT .. ON CONFLICT
("attendanceId") DO UPDATE. The DO UPDATE SET list assigns every column
via EXCLUDED except "createdAt" and "createdBy". -/
def processAttendanceUpsert (d : String → Option AttendanceRecord)
    (attendanceId : String) (r : AttendanceRecord) : String → Option AttendanceRecord :=
  fun k => if k = attendanceId then some (attendanceMerge (d attendanceId) r) else d k

/-- One full run of the user-profile batch writer against an unchanged
source: the per-row (userId, destination record) pairs produced by
processUser are upserted in row order. -/
def runUserProfileBatch (rows : List (String × UserProfileRecord))
    (d : String → Option UserProfileRecord) : String → Option UserProfileRecord :=
  rows.foldl (fun s r => insertOrUpdateUserProfileReport s r.1 r.2) d

/-- SQL equality of a row's key column against a query parameter: a NULL
parameter (or a NULL stored key) compares false against everything, so
`DELETE .. WHERE key = NULL` deletes nothing. -/
def sqlEq (a b : Option String) : Bool :=
  match a, b with
  | some x, some y => x == y
  | _, _ => false

/-- Delete-then-insert write used by migrateScoreDetailsTable,
migrateUserCourseDataTable and migrateCourseTable: first DELETE every row
whose key column equals the record's key, then append the new row. -/
def writeRecord {V : Type} (k : Option String) (v : V)
    (d : List (Option String × V)) : List (Option String × V) :=
  (d.filter fun p => !(sqlEq p.1 k)) ++ [(k, v)]

/-- One full run of a delete-then-insert batch: each extracted row's
(key, payload) pair is written in row order. -/
def runDeleteInsertBatch {V : Type} (rows : List (Option String × V))
    (d : List (Option String × V)) : List (Option String × V) :=
  rows.foldl (fun s r => writeRecord r.1 r.2 s) d

/-- One row of the destination course table, without its key column
course_do_id. -/
structure CourseRecord : Type where
  courseName : JSValue
  channel : JSValue
  language : JSValue
  program : JSValue
  primaryUser : JSValue
  targetAgeGroup : JSValue
  keywords : JSValue
  details : JSValue

def mkCourseRecord (v : JSValue) : CourseRecord :=
  { courseName := v, channel := v, language := v, program := v
  , primaryUser := v, targetAgeGroup := v, keywords := v, details := v }

/-- One row of the assessment_tracking_score_detail destination table,
without its key column id. -/
structure ScoreDetailRecord : Type where
  userId : JSValue
  assessmentTrackingId : JSValue
  questionId : JSValue
  pass : JSValue
  sectionId : JSValue
  resValue : JSValue
  duration : JSValue
  score : JSValue
  maxScore : JSValue
  queTitle : JSValue

def mkScoreDetailRecord (v : JSValue) : ScoreDetailRecord :=
  { userId := v, assessmentTrackingId := v, questionId := v, pass := v
  , sectionId := v, resValue := v, duration := v, score := v, maxScore := v
  , queTitle := v }

/-- A batch loop whose body is NOT wrapped in a per-row try/catch
(migrateUserProfileReports lines 38-40, migrateAssessmentTrackingTable):
each element is the outcome of processing one row (ok with the key/record
pair to write, or the error it threw). The first error propagates to the
batch-level catch: the loop stops and the remaining rows are never
processed. -/
def runLoopNoCatch {V : Type}
    (write : (String → Option V) → String → V → (String → Option V)) :
    List (Except String (String × V)) → (String → Option V) →
    (String → Option V) × Option String
  | [], d => (d, none)
  | Except.ok kv :: rest, d => runLoopNoCatch write rest (write d kv.1 kv.2)
  | Except.error e :: _, d => (d, some e)

/-- A batch loop whose body IS wrapped in a per-row try/catch
(processAttendance, processCohort): a failing row is logged and skipped
and the loop continues with the next row. -/
def runLoopPerRowCatch {V : Type}
    (write : (String → Option V) → String → V → (String → Option V)) :
    List (Except String (String × V)) → (String → Option V) →
    (String → Option V)
  | [], d => d
  | Except.ok kv :: rest, d => runLoopPerRowCatch write rest (write d kv.1 kv.2)
  | Except.error _ :: rest, d => runLoopPerRowCatch write rest d

/-- The user-profile migration loop: for each user row, processUser runs
and its upsert writes the record; no per-row catch. -/
def migrateUserProfileReportsLoop :
    List (Except String (String × UserProfileRecord)) →
    (String → Option UserProfileRecord) →
    ((String → Option UserProfileRecord) × Option String) :=
  runLoopNoCatch insertOrUpdateUserProfileReport

/-- The attendance migration loop: processAttendance catches its own
errors, so every row is attempted. -/
def migrateAttendanceReportsLoop :
    List (Except String (String × AttendanceRecord)) →
    (String → Option AttendanceRecord) →
    (String → Option AttendanceRecord) :=
  runLoopPerRowCatch processAttendanceUpsert

/-! ## Helper lemmas -/

theorem parseIntJS_num_or_nan (s : String) :
    (∃ m : Int, parseIntJS s = JSValue.num m) ∨ parseIntJS s = JSValue.nan := by
  by_cases h : ((takeDigits (stripSign (s.data.dropWhile jsWhitespaceChar)).2).1).isEmpty
  · right
    simp [parseIntJS, h]
  · left
    refine ⟨if (stripSign (s.data.dropWhile jsWhitespaceChar)).1 then
        -((digitsToNat (takeDigits (stripSign (s.data.dropWhile jsWhitespaceChar)).2).1 : Nat) : Int)
      else ((digitsToNat (takeDigits (stripSign (s.data.dropWhile jsWhitespaceChar)).2).1 : Nat) : Int), ?_⟩
    simp [parseIntJS, h]

theorem extractIdFromValue_shape (v : JSValue) :
    (∃ m : Int, extractIdFromValue v = JSValue.num m) ∨
      extractIdFromValue v = JSValue.nan ∨
      extractIdFromValue v = JSValue.null := by
  cases v with
  | null => exact Or.inr (Or.inr rfl)
  | undef => exact Or.inr (Or.inr rfl)
  | nan => exact Or.inr (Or.inr rfl)
  | bool b => cases b <;> exact Or.inr (Or.inr rfl)
  | num n =>
    by_cases h : n = 0
    · subst h
      exact Or.inr (Or.inr rfl)
    · left
      exact ⟨n, by simp [extractIdFromValue, jsFalsy, h]⟩
  | str s =>
    by_cases he : s.data.isEmpty
    · right; right
      simp [extractIdFromValue, jsFalsy, he]
    · simp only [extractIdFromValue, jsFalsy, he, Bool.false_eq_true, if_false]
      cases hr : firstDigitRun s.data with
      | some run => exact Or.inl ⟨_, rfl⟩
      | none =>
        by_cases hn : strNumberIsNaN s
        · simp [hn]
        · simp only [hn, Bool.not_false, if_true]
          rcases parseIntJS_num_or_nan s with ⟨m, hm⟩ | hm
          · exact Or.inl ⟨m, hm⟩
          · exact Or.inr (Or.inl hm)
  | arr xs =>
    cases xs with
    | nil => exact Or.inr (Or.inr rfl)
    | cons fv rest =>
      cases fv with
      | num m => exact Or.inl ⟨m, rfl⟩
      | nan => exact Or.inr (Or.inl rfl)
      | str fs =>
        by_cases hn : strNumberIsNaN fs
        · right; right
          simp [extractIdFromValue, jsFalsy, hn]
        · have hred : extractIdFromValue (JSValue.arr (JSValue.str fs :: rest)) =
              parseIntJS fs := by
            simp [extractIdFromValue, jsFalsy, hn]
          rw [hred]
          rcases parseIntJS_num_or_nan fs with ⟨m, hm⟩ | hm
          · exact Or.inl ⟨m, hm⟩
          · exact Or.inr (Or.inl hm)
      | null => exact Or.inr (Or.inr rfl)
      | undef => exact Or.inr (Or.inr rfl)
      | bool b => exact Or.inr (Or.inr rfl)
      | arr ys => exact Or.inr (Or.inr rfl)

/-! ## Claim theorems -/

/-- C2: the field extractor maps each of the five reference inputs as the
spec lists: bare integer 42 returns 42, array [42] returns 42, braced
string "{42}" returns 42, numeric string "42" returns 42, and non-numeric
string "abc" returns null. -/
theorem c2_extract_reference_inputs :
    extractIdFromValue (JSValue.num 42) = JSValue.num 42 ∧
    extractIdFromValue (JSValue.arr [JSValue.num 42]) = JSValue.num 42 ∧
    extractIdFromValue (JSValue.str "{42}") = JSValue.num 42 ∧
    extractIdFromValue (JSValue.str "42") = JSValue.num 42 ∧
    extractIdFromValue (JSValue.str "abc") = JSValue.null :=
  ⟨rfl, rfl, rfl, rfl, rfl⟩

/-- C10: for every falsy input — null, undefined, false, the empty string,
and the number 0 — the field extractor returns null before any shape
analysis; in particular the numeric identifier 0 is mapped to null rather
than returned as itself. -/
theorem c10_falsy_inputs_return_null :
    extractIdFromValue JSValue.null = JSValue.null ∧
    extractIdFromValue JSValue.undef = JSValue.null ∧
    extractIdFromValue (JSValue.bool false) = JSValue.null ∧
    extractIdFromValue (JSValue.str "") = JSValue.null ∧
    extractIdFromValue (JSValue.num 0) = JSValue.null :=
  ⟨rfl, rfl, rfl, rfl, rfl⟩

/-- C9: full-name construction joins the first, middle and last name parts
with single-space separators and trims only the edges of the joined
result: for parts ("Asha", "", "Rao") the stored fullName is "Asha  Rao",
and its character sequence shows the internal double space intact. -/
theorem c9_full_name_double_space :
    buildFullName "Asha" "" "Rao" = "Asha  Rao" ∧
    (buildFullName "Asha" "" "Rao").data =
      ['A', 's', 'h', 'a', ' ', ' ', 'R', 'a', 'o'] :=
  ⟨rfl, rfl⟩

/-- C7 counterexample: the extractor does not always return a positive
integer or null, and does not return every number input unchanged. At
input 0 it returns null rather than 0 (the result is not even a number);
at input -5 it returns -5, a number that is not null and not positive; at
input " " (a truthy string without a digit run that `Number` accepts) it
returns NaN, which is neither a number constructor nor null. -/
theorem c7_counterexample :
    extractIdFromValue (JSValue.num 0) = JSValue.null ∧
    JSValue.isNum (extractIdFromValue (JSValue.num 0)) = false ∧
    extractIdFromValue (JSValue.num (-5)) = JSValue.num (-5) ∧
    JSValue.isNull (extractIdFromValue (JSValue.num (-5))) = false ∧
    decide ((0 : Int) < -5) = false ∧
    extractIdFromValue (JSValue.str " ") = JSValue.nan ∧
    JSValue.isNull (extractIdFromValue (JSValue.str " ")) = false ∧
    JSValue.isNum (extractIdFromValue (JSValue.str " ")) = false :=
  ⟨rfl, rfl, rfl, rfl, rfl, rfl, rfl, rfl⟩

/-- C7 amended: for every input, the field extractor returns a JavaScript
number (an integer, possibly non-positive, or NaN) or null; and every
number input that is nonzero (hence truthy) is returned unchanged. -/
theorem c7_amended_extract_number_or_null (v : JSValue) (n : Int) (hn : n ≠ 0) :
    ((∃ m : Int, extractIdFromValue v = JSValue.num m) ∨
      extractIdFromValue v = JSValue.nan ∨
      extractIdFromValue v = JSValue.null) ∧
    extractIdFromValue (JSValue.num n) = JSValue.num n :=
  ⟨extractIdFromValue_shape v, by simp [extractIdFromValue, jsFalsy, hn]⟩

/-- Witness for C7 amended at the concrete inputs "abc" and 3. -/
theorem c7_amended_extract_number_or_null_witness :
    ((∃ m : Int, extractIdFromValue (JSValue.str "abc") = JSValue.num m) ∨
      extractIdFromValue (JSValue.str "abc") = JSValue.nan ∨
      extractIdFromValue (JSValue.str "abc") = JSValue.null) ∧
    extractIdFromValue (JSValue.num 3) = JSValue.num 3 :=
  c7_amended_extract_number_or_null (JSValue.str "abc") 3 (by decide)

/-- C6: every enrichment resolver is total toward its caller: a thrown
query (safeQuery, getLocationName), a thrown request or a missing payload
field (fetchApiData, fetchCourseData) is converted into the default /
empty result rather than raised — the embedding functions are total and
every listed failure outcome maps to the default value, the empty object
or null. -/
theorem c6_resolver_totality :
    (∀ (e : String) (d : List (String × JSValue)),
      safeQuery (Except.error e) d = d) ∧
    (∀ (rows d : List (String × JSValue)),
      safeQuery (Except.ok rows) d = rows) ∧
    (∀ (cid : JSValue) (msg : String),
      fetchApiData cid (ApiOutcome.thrown msg) = FetchResult.emptyObj) ∧
    (∀ cid : JSValue,
      fetchApiData cid (ApiOutcome.ok ⟨none⟩) = FetchResult.emptyObj) ∧
    (∀ cid : JSValue,
      fetchApiData cid (ApiOutcome.ok ⟨some ⟨none⟩⟩) = FetchResult.emptyObj) ∧
    (∀ (cid : JSValue) (msg : String),
      fetchCourseData cid (ApiOutcome.thrown msg) = emptyContent) ∧
    (∀ cid : JSValue,
      fetchCourseData cid (ApiOutcome.ok ⟨none⟩) = emptyContent) ∧
    (∀ cid : JSValue,
      fetchCourseData cid (ApiOutcome.ok ⟨some ⟨none⟩⟩) = emptyContent) ∧
    (∀ (id : JSValue) (e : String),
      getLocationName id (Except.error e) = none) := by
  refine ⟨fun e d => rfl, fun rows d => rfl, ?_, ?_, ?_, ?_, ?_, ?_, ?_⟩
  · intro cid msg
    cases h : jsFalsy cid <;> simp [fetchApiData, h]
  · intro cid
    cases h : jsFalsy cid <;> simp [fetchApiData, h]
  · intro cid
    cases h : jsFalsy cid <;> simp [fetchApiData, h]
  · intro cid msg
    cases h : jsFalsy cid <;> simp [fetchCourseData, h]
  · intro cid
    cases h : jsFalsy cid <;> simp [fetchCourseData, h]
  · intro cid
    cases h : jsFalsy cid <;> simp [fetchCourseData, h]
  · intro id e
    unfold getLocationName
    cases h : jsFalsy id <;> simp only [h, Bool.false_eq_true, if_false, if_true]
    cases h2 : jsFalsy (extractIdFromValue id) <;>
      simp only [h2, Bool.false_eq_true, if_false, if_true]

theorem isUndef_of_not_falsy (v : JSValue) (h : jsFalsy v = false) :
    JSValue.isUndef v = false := by
  cases v <;> first | rfl | exact absurd h (by simp [jsFalsy])

theorem jsOr_isUndef_false (v b : JSValue) (hb : JSValue.isUndef b = false) :
    JSValue.isUndef (jsOr v b) = false := by
  unfold jsOr
  cases h : jsFalsy v
  · simp only [Bool.false_eq_true, if_false]
    exact isUndef_of_not_falsy v h
  · simpa using hb

/-- C5 counterexample: for the empty enrichment result `{}` (what
fetchCourseData returns on any failure), the course transformer leaves the
scalar fields courseDoId, courseName and channel undefined rather than
defaulting them to null. -/
theorem c5_counterexample :
    (mapContentToCourseEntity emptyContent).courseDoId = JSValue.undef ∧
    (mapContentToCourseEntity emptyContent).courseName = JSValue.undef ∧
    (mapContentToCourseEntity emptyContent).channel = JSValue.undef ∧
    JSValue.isUndef (mapContentToCourseEntity emptyContent).courseDoId = true :=
  ⟨rfl, rfl, rfl, rfl⟩

/-- C5 amended: the course transformer's five list-shaped fields default
to the empty array and are never undefined, and the assessment
transformer's enrichment-derived columns default to null (with the
constant summaryType) and are never undefined; but the course
transformer's scalar fields courseDoId, courseName and channel are copied
as-is and are left undefined when their enrichment counterpart is absent
(shown by the counterexample). -/
theorem c5_amended_transformer_defaults :
    (∀ c : ApiContent,
      JSValue.isUndef (mapContentToCourseEntity c).language = false ∧
      JSValue.isUndef (mapContentToCourseEntity c).program = false ∧
      JSValue.isUndef (mapContentToCourseEntity c).primaryUser = false ∧
      JSValue.isUndef (mapContentToCourseEntity c).targetAgeGroup = false ∧
      JSValue.isUndef (mapContentToCourseEntity c).keywords = false) ∧
    ((mapContentToCourseEntity emptyContent).language = JSValue.arr [] ∧
     (mapContentToCourseEntity emptyContent).program = JSValue.arr [] ∧
     (mapContentToCourseEntity emptyContent).primaryUser = JSValue.arr [] ∧
     (mapContentToCourseEntity emptyContent).targetAgeGroup = JSValue.arr [] ∧
     (mapContentToCourseEntity emptyContent).keywords = JSValue.arr []) ∧
    (∀ a : FetchResult,
      JSValue.isUndef (assessmentEnrichmentValues a).name = false ∧
      JSValue.isUndef (assessmentEnrichmentValues a).description = false ∧
      JSValue.isUndef (assessmentEnrichmentValues a).subject = false ∧
      JSValue.isUndef (assessmentEnrichmentValues a).domain = false ∧
      JSValue.isUndef (assessmentEnrichmentValues a).subDomain = false ∧
      JSValue.isUndef (assessmentEnrichmentValues a).channel = false ∧
      JSValue.isUndef (assessmentEnrichmentValues a).assessmentType = false ∧
      JSValue.isUndef (assessmentEnrichmentValues a).program = false ∧
      JSValue.isUndef (assessmentEnrichmentValues a).targetAgeGroup = false ∧
      JSValue.isUndef (assessmentEnrichmentValues a).assessmentName = false ∧
      JSValue.isUndef (assessmentEnrichmentValues a).contentLanguage = false ∧
      JSValue.isUndef (assessmentEnrichmentValues a).status = false ∧
      JSValue.isUndef (assessmentEnrichmentValues a).framework = false ∧
      JSValue.isUndef (assessmentEnrichmentValues a).summaryType = false) ∧
    (assessmentEnrichmentValues FetchResult.emptyObj =
      { name := JSValue.null, description := JSValue.null, subject := JSValue.null
      , domain := JSValue.null, subDomain := JSValue.null, channel := JSValue.null
      , assessmentType := JSValue.null, program := JSValue.null
      , targetAgeGroup := JSValue.null, assessmentName := JSValue.null
      , contentLanguage := JSValue.null, status := JSValue.null
      , framework := JSValue.null
      , summaryType := JSValue.str "assessment_tracking" }) ∧
    (assessmentEnrichmentValues FetchResult.undef =
      { name := JSValue.null, description := JSValue.null, subject := JSValue.null
      , domain := JSValue.null, subDomain := JSValue.null, channel := JSValue.null
      , assessmentType := JSValue.null, program := JSValue.null
      , targetAgeGroup := JSValue.null, assessmentName := JSValue.null
      , contentLanguage := JSValue.null, status := JSValue.null
      , framework := JSValue.null
      , summaryType := JSValue.str "assessment_tracking" }) := by
  refine ⟨?_, ⟨rfl, rfl, rfl, rfl, rfl⟩, ?_, rfl, rfl⟩
  · intro c
    exact ⟨jsOr_isUndef_false _ _ rfl, jsOr_isUndef_false _ _ rfl,
      jsOr_isUndef_false _ _ rfl, jsOr_isUndef_false _ _ rfl,
      jsOr_isUndef_false _ _ rfl⟩
  · intro a
    exact ⟨jsOr_isUndef_false _ _ rfl, jsOr_isUndef_false _ _ rfl,
      jsOr_isUndef_false _ _ rfl, jsOr_isUndef_false _ _ rfl,
      jsOr_isUndef_false _ _ rfl, jsOr_isUndef_false _ _ rfl,
      jsOr_isUndef_false _ _ rfl, jsOr_isUndef_false _ _ rfl,
      jsOr_isUndef_false _ _ rfl, jsOr_isUndef_false _ _ rfl,
      jsOr_isUndef_false _ _ rfl, jsOr_isUndef_false _ _ rfl,
      jsOr_isUndef_false _ _ rfl, rfl⟩

/-- C4 counterexample: on a key conflict the UserProfileReport upsert does
NOT overwrite every non-key column — the DO UPDATE SET list omits
createdAt and createdBy, so after re-invocation with a changed record the
createdAt column still holds the prior row's value "a", not the new
record's value "b". -/
theorem c4_counterexample :
    (insertOrUpdateUserProfileReport
        (fun k => if k = "u1" then some (mkUserProfileRecord (JSValue.str "a")) else none)
        "u1" (mkUserProfileRecord (JSValue.str "b"))) "u1" =
      some { mkUserProfileRecord (JSValue.str "b") with
              createdAt := JSValue.str "a", createdBy := JSValue.str "a" } ∧
    Option.map (fun row => JSValue.strVal row.createdAt)
        ((insertOrUpdateUserProfileReport
          (fun k => if k = "u1" then some (mkUserProfileRecord (JSValue.str "a")) else none)
          "u1" (mkUserProfileRecord (JSValue.str "b"))) "u1") = some (some "a") ∧
    JSValue.strVal (mkUserProfileRecord (JSValue.str "b")).createdAt = some "b" ∧
    (("a" : String) == "b") = false :=
  ⟨rfl, rfl, rfl, by decide⟩

/-- C4 amended: when the upsert hits a key conflict, every non-key column
except the creation-audit columns createdAt and createdBy is overwritten
with the new record's value (those two keep the existing row's values);
re-invocation with a changed record overwrites every column except
createdAt/createdBy; rows at other keys are untouched. The same holds for
the processAttendance upsert. -/
theorem c4_amended_upsert_overwrites (d : String → Option UserProfileRecord)
    (uid : String) (r r2 old : UserProfileRecord) (h : d uid = some old)
    (da : String → Option AttendanceRecord) (aid : String)
    (ra olda : AttendanceRecord) (ha : da aid = some olda)
    (k k2 : String) (hk : k ≠ uid) (hk2 : k2 ≠ aid) :
    insertOrUpdateUserProfileReport d uid r uid =
      some { r with createdAt := old.createdAt, createdBy := old.createdBy } ∧
    insertOrUpdateUserProfileReport (insertOrUpdateUserProfileReport d uid r) uid r2 uid =
      some { r2 with createdAt := old.createdAt, createdBy := old.createdBy } ∧
    insertOrUpdateUserProfileReport d uid r k = d k ∧
    processAttendanceUpsert da aid ra aid =
      some { ra with createdAt := olda.createdAt, createdBy := olda.createdBy } ∧
    processAttendanceUpsert da aid ra k2 = da k2 := by
  refine ⟨?_, ?_, ?_, ?_, ?_⟩
  · simp [insertOrUpdateUserProfileReport, upsertMerge, h]
  · simp [insertOrUpdateUserProfileReport, upsertMerge, h]
  · simp [insertOrUpdateUserProfileReport, hk]
  · simp [processAttendanceUpsert, attendanceMerge, ha]
  · simp [processAttendanceUpsert, hk2]

/-- Witness for C4 amended at concrete destination states and records. -/
theorem c4_amended_upsert_overwrites_witness :
    insertOrUpdateUserProfileReport
        (fun k => if k = "u1" then some (mkUserProfileRecord JSValue.null) else none)
        "u1" (mkUserProfileRecord (JSValue.str "x")) "u1" =
      some { mkUserProfileRecord (JSValue.str "x") with
              createdAt := (mkUserProfileRecord JSValue.null).createdAt
            , createdBy := (mkUserProfileRecord JSValue.null).createdBy } ∧
    insertOrUpdateUserProfileReport
        (insertOrUpdateUserProfileReport
          (fun k => if k = "u1" then some (mkUserProfileRecord JSValue.null) else none)
          "u1" (mkUserProfileRecord (JSValue.str "x")))
        "u1" (mkUserProfileRecord (JSValue.str "y")) "u1" =
      some { mkUserProfileRecord (JSValue.str "y") with
              createdAt := (mkUserProfileRecord JSValue.null).createdAt
            , createdBy := (mkUserProfileRecord JSValue.null).createdBy } ∧
    insertOrUpdateUserProfileReport
        (fun k => if k = "u1" then some (mkUserProfileRecord JSValue.null) else none)
        "u1" (mkUserProfileRecord (JSValue.str "x")) "other" =
      (fun k => if k = "u1" then some (mkUserProfileRecord JSValue.null) else none) "other" ∧
    processAttendanceUpsert
        (fun k => if k = "a1" then some (mkAttendanceRecord JSValue.null) else none)
        "a1" (mkAttendanceRecord (JSValue.str "x")) "a1" =
      some { mkAttendanceRecord (JSValue.str "x") with
              createdAt := (mkAttendanceRecord JSValue.null).createdAt
            , createdBy := (mkAttendanceRecord JSValue.null).createdBy } ∧
    processAttendanceUpsert
        (fun k => if k = "a1" then some (mkAttendanceRecord JSValue.null) else none)
        "a1" (mkAttendanceRecord (JSValue.str "x")) "other" =
      (fun k => if k = "a1" then some (mkAttendanceRecord JSValue.null) else none) "other" :=
  c4_amended_upsert_overwrites
    (fun k => if k = "u1" then some (mkUserProfileRecord JSValue.null) else none)
    "u1" (mkUserProfileRecord (JSValue.str "x")) (mkUserProfileRecord (JSValue.str "y"))
    (mkUserProfileRecord JSValue.null) (by simp)
    (fun k => if k = "a1" then some (mkAttendanceRecord JSValue.null) else none)
    "a1" (mkAttendanceRecord (JSValue.str "x")) (mkAttendanceRecord JSValue.null) (by simp)
    "other" "other" (by decide) (by decide)

theorem runLoopPerRowCatch_processes_all {V : Type}
    (write : (String → Option V) → String → V → (String → Option V)) :
    ∀ (outs : List (Except String (String × V))) (d : String → Option V),
      runLoopPerRowCatch write outs d =
        (outs.filterMap Except.toOption).foldl (fun s r => write s r.1 r.2) d := by
  intro outs
  induction outs with
  | nil => intro d; rfl
  | cons o rest ih =>
    intro d
    cases o with
    | ok kv => simpa [runLoopPerRowCatch, Except.toOption] using ih (write d kv.1 kv.2)
    | error e => simpa [runLoopPerRowCatch, Except.toOption] using ih d

theorem runLoopNoCatch_stops_at_error {V : Type}
    (write : (String → Option V) → String → V → (String → Option V)) (e : String) :
    ∀ (pre rest : List (Except String (String × V))) (d : String → Option V),
      runLoopNoCatch write (pre ++ Except.error e :: rest) d =
        runLoopNoCatch write (pre ++ [Except.error e]) d := by
  intro pre
  induction pre with
  | nil => intro rest d; rfl
  | cons o pre2 ih =>
    intro rest d
    cases o with
    | ok kv => simpa [runLoopNoCatch] using ih rest (write d kv.1 kv.2)
    | error e2 => rfl

/-- C1 counterexample: in the user-profile runner (no per-row try/catch),
a single failing row aborts the remainder of the batch. With row 1
throwing and row 2 succeeding, row 2's record is never written (the
destination still has nothing at key "u2") and the error surfaces at
batch level. -/
theorem c1_counterexample :
    (migrateUserProfileReportsLoop
        [Except.error "row 1 write failed",
         Except.ok ("u2", mkUserProfileRecord JSValue.null)]
        (fun _ => none)).1 "u2" = none ∧
    (migrateUserProfileReportsLoop
        [Except.error "row 1 write failed",
         Except.ok ("u2", mkUserProfileRecord JSValue.null)]
        (fun _ => none)).2 = some "row 1 write failed" :=
  ⟨rfl, rfl⟩

/-- C1 amended: per-row error isolation holds only in the runners whose
loop body has its own try/catch (processAttendance, processCohort): there
a failing row is skipped and the final state is the fold of exactly the
successful rows. In the user-profile and assessment runners the loop body
has no catch, so the first row error ends the loop — the rows after it
are never processed (the result does not depend on them) and the error is
reported at batch level with the state as accumulated so far. -/
theorem c1_amended_error_isolation
    (outsA : List (Except String (String × AttendanceRecord)))
    (dA : String → Option AttendanceRecord) (eA : String)
    (pre rest : List (Except String (String × UserProfileRecord)))
    (dU : String → Option UserProfileRecord) (eU : String) :
    migrateAttendanceReportsLoop (Except.error eA :: outsA) dA =
      migrateAttendanceReportsLoop outsA dA ∧
    migrateAttendanceReportsLoop outsA dA =
      (outsA.filterMap Except.toOption).foldl
        (fun s r => processAttendanceUpsert s r.1 r.2) dA ∧
    migrateUserProfileReportsLoop (pre ++ Except.error eU :: rest) dU =
      migrateUserProfileReportsLoop (pre ++ [Except.error eU]) dU ∧
    migrateUserProfileReportsLoop (Except.error eU :: rest) dU = (dU, some eU) :=
  ⟨rfl,
   runLoopPerRowCatch_processes_all processAttendanceUpsert outsA dA,
   runLoopNoCatch_stops_at_error insertOrUpdateUserProfileReport eU pre rest dU,
   rfl⟩

theorem sqlEq_some_right (p1 : Option String) (s : String) :
    sqlEq p1 (some s) = (p1 == some s) := by
  cases p1 <;> rfl

theorem filter_after_delete {V : Type} (s : String) (d : List (Option String × V)) :
    ((d.filter fun p => !(sqlEq p.1 (some s))).filter fun p => p.1 == some s) = [] := by
  induction d with
  | nil => rfl
  | cons p t ih =>
    by_cases hp : p.1 == some s
    · have hs : sqlEq p.1 (some s) = true := by rw [sqlEq_some_right]; exact hp
      simp [hs, ih]
    · have hs : sqlEq p.1 (some s) = false := by
        rw [sqlEq_some_right]
        exact Bool.of_not_eq_true hp
      simp [hs, hp, ih]

/-- C8: under the delete-then-insert discipline, writing a record with key
K twice with two different payloads leaves exactly one destination row for
K, and that row holds the second payload. -/
theorem c8_delete_then_insert_second_wins (s : String)
    (v1 v2 : ScoreDetailRecord) (d : List (Option String × ScoreDetailRecord))
    (hv : v1 ≠ v2) :
    (writeRecord (some s) v2 (writeRecord (some s) v1 d)).filter
        (fun p => p.1 == some s) = [(some s, v2)] := by
  have hself : sqlEq (some s) (some s) = true := by simp [sqlEq]
  unfold writeRecord
  simp only [List.filter_append, List.filter_cons, hself, Bool.not_true,
    Bool.false_eq_true, if_false, List.filter_nil, List.append_nil]
  rw [filter_after_delete]
  simp

/-- Per-key view of a sequence of upserts against one key: the record
values (in batch order) whose key equals the observed key, folded with the
conflict-merge over the prior cell value. -/
def upsertFoldAtKey (vs : List UserProfileRecord) (o : Option UserProfileRecord) :
    Option UserProfileRecord :=
  vs.foldl (fun acc v => some (upsertMerge acc v)) o

/-- Chain of conflict-merges starting from an existing row m. -/
def upsertChain (m : UserProfileRecord) : List UserProfileRecord → UserProfileRecord
  | [] => m
  | v :: rest => upsertChain (upsertMerge (some m) v) rest

theorem upsertMerge_absorb (m m' : UserProfileRecord) (v : UserProfileRecord) :
    upsertMerge (some m) (upsertMerge (some m') v) = upsertMerge (some m) v := rfl

theorem upsertMerge_self (v : UserProfileRecord) : upsertMerge (some v) v = v := rfl

theorem upsertMerge_congr_created (X Y v : UserProfileRecord)
    (h1 : X.createdAt = Y.createdAt) (h2 : X.createdBy = Y.createdBy) :
    upsertMerge (some X) v = upsertMerge (some Y) v :=
  calc upsertMerge (some X) v
      = { v with createdAt := X.createdAt, createdBy := X.createdBy } := rfl
    _ = { v with createdAt := Y.createdAt, createdBy := Y.createdBy } := by rw [h1, h2]
    _ = upsertMerge (some Y) v := rfl

theorem upsertFoldAtKey_some (vs : List UserProfileRecord) :
    ∀ m, upsertFoldAtKey vs (some m) = some (upsertChain m vs) := by
  induction vs with
  | nil => intro m; rfl
  | cons v rest ih => intro m; exact ih (upsertMerge (some m) v)

theorem upsertChain_merge (vs : List UserProfileRecord) :
    ∀ m m', vs ≠ [] → upsertChain m vs = upsertMerge (some m) (upsertChain m' vs) := by
  induction vs with
  | nil => intro m m' h; exact absurd rfl h
  | cons v rest ih =>
    intro m m' _
    cases rest with
    | nil => exact (upsertMerge_absorb m m' v).symm
    | cons v2 rest2 =>
      calc upsertChain m (v :: v2 :: rest2)
          = upsertChain (upsertMerge (some m) v) (v2 :: rest2) := rfl
        _ = upsertMerge (some (upsertMerge (some m) v))
              (upsertChain (upsertMerge (some m') v) (v2 :: rest2)) :=
            ih (upsertMerge (some m) v) (upsertMerge (some m') v) (by simp)
        _ = upsertMerge (some m)
              (upsertChain (upsertMerge (some m') v) (v2 :: rest2)) :=
            upsertMerge_congr_created _ _ _ rfl rfl
        _ = upsertMerge (some m) (upsertChain m' (v :: v2 :: rest2)) := rfl

theorem upsertFoldAtKey_idem (vs : List UserProfileRecord) (o : Option UserProfileRecord) :
    upsertFoldAtKey vs (upsertFoldAtKey vs o) = upsertFoldAtKey vs o := by
  cases vs with
  | nil => rfl
  | cons v rest =>
    cases o with
    | some m =>
      rw [upsertFoldAtKey_some (v :: rest) m,
        upsertFoldAtKey_some (v :: rest) (upsertChain m (v :: rest))]
      have hm := upsertChain_merge (v :: rest) (upsertChain m (v :: rest)) m (by simp)
      rw [hm, upsertMerge_self]
    | none =>
      cases rest with
      | nil =>
        calc upsertFoldAtKey [v] (upsertFoldAtKey [v] none)
            = some (upsertMerge (some v) v) := rfl
          _ = some v := congrArg some (upsertMerge_self v)
          _ = upsertFoldAtKey [v] none := rfl
      | cons v2 rest2 =>
        have hinner : upsertFoldAtKey (v :: v2 :: rest2) none =
            some (upsertChain v (v2 :: rest2)) := upsertFoldAtKey_some (v2 :: rest2) v
        rw [hinner,
          upsertFoldAtKey_some (v :: v2 :: rest2) (upsertChain v (v2 :: rest2))]
        have hX : upsertChain v (v :: v2 :: rest2) = upsertChain v (v2 :: rest2) := by
          show upsertChain (upsertMerge (some v) v) (v2 :: rest2) =
            upsertChain v (v2 :: rest2)
          rw [upsertMerge_self]
        have hm := upsertChain_merge (v :: v2 :: rest2)
          (upsertChain v (v2 :: rest2)) v (by simp)
        rw [hm, hX, upsertMerge_self]

theorem runUserProfileBatch_apply (rows : List (String × UserProfileRecord)) :
    ∀ (d : String → Option UserProfileRecord) (k : String),
      runUserProfileBatch rows d k =
        upsertFoldAtKey ((rows.filter (fun r => r.1 == k)).map Prod.snd) (d k) := by
  induction rows with
  | nil => intro d k; rfl
  | cons row rs ih =>
    intro d k
    have h1 : runUserProfileBatch (row :: rs) d =
        runUserProfileBatch rs (insertOrUpdateUserProfileReport d row.1 row.2) := rfl
    rw [h1, ih]
    by_cases hk : row.1 = k
    · subst hk
      have h2 : insertOrUpdateUserProfileReport d row.1 row.2 row.1 =
          some (upsertMerge (d row.1) row.2) := by
        simp [insertOrUpdateUserProfileReport]
      rw [h2]
      have h3 : (row :: rs).filter (fun r => r.1 == row.1) =
          row :: rs.filter (fun r => r.1 == row.1) := by
        simp [List.filter_cons]
      rw [h3]
      rfl
    · have hne : ¬(k = row.1) := fun hh => hk hh.symm
      have h2 : insertOrUpdateUserProfileReport d row.1 row.2 k = d k := by
        simp [insertOrUpdateUserProfileReport, hne]
      have h3 : (row :: rs).filter (fun r => r.1 == k) =
          rs.filter (fun r => r.1 == k) := by
        simp [List.filter_cons, hk]
      rw [h2, h3]

theorem runUserProfileBatch_idem (rows : List (String × UserProfileRecord))
    (d : String → Option UserProfileRecord) :
    runUserProfileBatch rows (runUserProfileBatch rows d) = runUserProfileBatch rows d := by
  funext k
  simp only [runUserProfileBatch_apply]
  exact upsertFoldAtKey_idem _ _

/-- No key of the batch SQL-matches the row's key column. -/
def noKeyHit {V : Type} (ks : List (Option String)) (p : Option String × V) : Bool :=
  ks.all fun k2 => !(sqlEq p.1 k2)

theorem filter_noKeyHit_cons {V : Type} (k0 : Option String)
    (ks : List (Option String)) (d : List (Option String × V)) :
    (d.filter fun p => !(sqlEq p.1 k0)).filter (noKeyHit ks) =
      d.filter (noKeyHit (k0 :: ks)) := by
  induction d with
  | nil => rfl
  | cons p t ih =>
    by_cases h0 : sqlEq p.1 k0
    · have hc : noKeyHit (k0 :: ks) p = false := by
        simp [noKeyHit, h0]
      simp [List.filter_cons, h0, hc, ih]
    · have h0f : sqlEq p.1 k0 = false := Bool.of_not_eq_true h0
      have hc : noKeyHit (k0 :: ks) p = ((!(sqlEq p.1 k0)) && noKeyHit ks p) := rfl
      by_cases hks : noKeyHit ks p
      · simp [List.filter_cons, h0f, hc, hks, ih]
      · have hksf : noKeyHit ks p = false := Bool.of_not_eq_true hks
        simp [List.filter_cons, h0f, hc, hksf, ih]

theorem runDeleteInsertBatch_decompose {V : Type} (rows : List (Option String × V)) :
    ∀ d, runDeleteInsertBatch rows d =
      d.filter (noKeyHit (rows.map Prod.fst)) ++ runDeleteInsertBatch rows [] := by
  induction rows with
  | nil =>
    intro d
    have h1 : d.filter (noKeyHit ([] : List (Option String))) = d := by
      induction d with
      | nil => rfl
      | cons p t ih => simp [List.filter_cons, noKeyHit, ih]
    simp [runDeleteInsertBatch, h1]
  | cons row rs ih =>
    intro d
    have h1 : runDeleteInsertBatch (row :: rs) d =
        runDeleteInsertBatch rs (writeRecord row.1 row.2 d) := rfl
    rw [h1, ih (writeRecord row.1 row.2 d)]
    have h2 : writeRecord row.1 row.2 d =
        d.filter (fun p => !(sqlEq p.1 row.1)) ++ [(row.1, row.2)] := rfl
    rw [h2, List.filter_append, filter_noKeyHit_cons]
    have h3 : runDeleteInsertBatch (row :: rs) ([] : List (Option String × V)) =
        [(row.1, row.2)].filter (noKeyHit (rs.map Prod.fst)) ++
          runDeleteInsertBatch rs [] := by
      have h4 : runDeleteInsertBatch (row :: rs) ([] : List (Option String × V)) =
          runDeleteInsertBatch rs [(row.1, row.2)] := rfl
      rw [h4, ih [(row.1, row.2)]]
    rw [h3, List.map_cons, List.append_assoc]

theorem runDeleteInsertBatch_mem {V : Type} (rows : List (Option String × V)) :
    ∀ d p, p ∈ runDeleteInsertBatch rows d → p ∈ d ∨ p.1 ∈ rows.map Prod.fst := by
  induction rows with
  | nil => intro d p hp; exact Or.inl hp
  | cons row rs ih =>
    intro d p hp
    have h1 : runDeleteInsertBatch (row :: rs) d =
        runDeleteInsertBatch rs (writeRecord row.1 row.2 d) := rfl
    rw [h1] at hp
    rcases ih _ p hp with hmem | hkey
    · rcases List.mem_append.mp hmem with hf | hs
      · exact Or.inl (List.mem_filter.mp hf).1
      · have hps : p = (row.1, row.2) := by simpa using hs
        right
        rw [List.map_cons, hps]
        exact List.mem_cons_self _ _
    · right
      rw [List.map_cons]
      exact List.mem_cons_of_mem _ hkey

theorem runDeleteInsertBatch_idem {V : Type} (rows : List (Option String × V))
    (d : List (Option String × V)) (h : ∀ r ∈ rows, (r.1).isSome = true) :
    runDeleteInsertBatch rows (runDeleteInsertBatch rows d) =
      runDeleteInsertBatch rows d := by
  rw [runDeleteInsertBatch_decompose rows (runDeleteInsertBatch rows d),
    runDeleteInsertBatch_decompose rows d, List.filter_append]
  have hidem : (d.filter (noKeyHit (rows.map Prod.fst))).filter
      (noKeyHit (rows.map Prod.fst)) = d.filter (noKeyHit (rows.map Prod.fst)) := by
    induction d with
    | nil => rfl
    | cons p t ih =>
      by_cases hp : noKeyHit (rows.map Prod.fst) p
      · simp [List.filter_cons, hp, ih]
      · have hpf : noKeyHit (rows.map Prod.fst) p = false := Bool.of_not_eq_true hp
        simp [List.filter_cons, hpf, ih]
  have hnil : (runDeleteInsertBatch rows ([] : List (Option String × V))).filter
      (noKeyHit (rows.map Prod.fst)) = [] := by
    rw [List.filter_eq_nil_iff]
    intro p hp
    rcases runDeleteInsertBatch_mem rows [] p hp with h0 | hkey
    · exact absurd h0 (List.not_mem_nil p)
    · intro hall
      rcases List.mem_map.mp hkey with ⟨r, hr, hr1⟩
      have hsome : (p.1).isSome = true := hr1 ▸ h r hr
      rcases Option.isSome_iff_exists.mp hsome with ⟨s, hs⟩
      have hhit := (List.all_eq_true.mp hall) p.1 hkey
      rw [hs] at hhit
      simp [sqlEq] at hhit
  rw [hidem, hnil, List.append_nil]

/-- C3 counterexample: the delete-then-insert discipline of
migrateCourseTable keys the DELETE on the enrichment-derived courseDoId.
When enrichment yields no identifier both runs (fetchCourseData returns
`{}`, so courseDoId is undefined and the SQL parameter is NULL), the
DELETE `WHERE course_do_id = NULL` matches nothing, so the second run
appends a duplicate row: the destination after run two (2 rows) differs
from the destination after run one (1 row). -/
theorem c3_counterexample :
    (runDeleteInsertBatch [(none, mkCourseRecord JSValue.null)]
        ([] : List (Option String × CourseRecord))).length = 1 ∧
    (runDeleteInsertBatch [(none, mkCourseRecord JSValue.null)]
        (runDeleteInsertBatch [(none, mkCourseRecord JSValue.null)]
          ([] : List (Option String × CourseRecord)))).length = 2 ∧
    decide ((runDeleteInsertBatch [(none, mkCourseRecord JSValue.null)]
        (runDeleteInsertBatch [(none, mkCourseRecord JSValue.null)]
          ([] : List (Option String × CourseRecord)))).length =
      (runDeleteInsertBatch [(none, mkCourseRecord JSValue.null)]
        ([] : List (Option String × CourseRecord))).length) = false :=
  ⟨rfl, rfl, rfl⟩

/-- C3 amended: running the batch twice against an unchanged source (and
unchanged enrichment results) leaves the destination state after the
second run equal to the state after the first run, unconditionally for
the upsert-based user-profile batch, and for the delete-then-insert
batch provided every written record carries a non-null key (which fails
for course rows whose enrichment yielded no identifier, as the
counterexample shows). -/
theorem c3_amended_batch_idempotence (uprows : List (String × UserProfileRecord))
    (du : String → Option UserProfileRecord)
    (dirows : List (Option String × CourseRecord))
    (dd : List (Option String × CourseRecord))
    (h : ∀ r ∈ dirows, (r.1).isSome = true) :
    runUserProfileBatch uprows (runUserProfileBatch uprows du) =
      runUserProfileBatch uprows du ∧
    runDeleteInsertBatch dirows (runDeleteInsertBatch dirows dd) =
      runDeleteInsertBatch dirows dd :=
  ⟨runUserProfileBatch_idem uprows du, runDeleteInsertBatch_idem dirows dd h⟩

/-- Witness for C3 amended at a one-row upsert batch and a one-row
delete-then-insert batch whose key is non-null. -/
theorem c3_amended_batch_idempotence_witness :
    runUserProfileBatch [("u1", mkUserProfileRecord JSValue.null)]
        (runUserProfileBatch [("u1", mkUserProfileRecord JSValue.null)] (fun _ => none)) =
      runUserProfileBatch [("u1", mkUserProfileRecord JSValue.null)] (fun _ => none) ∧
    runDeleteInsertBatch [(some "c1", mkCourseRecord JSValue.null)]
        (runDeleteInsertBatch [(some "c1", mkCourseRecord JSValue.null)]
          ([] : List (Option String × CourseRecord))) =
      runDeleteInsertBatch [(some "c1", mkCourseRecord JSValue.null)]
        ([] : List (Option String × CourseRecord)) :=
  c3_amended_batch_idempotence [("u1", mkUserProfileRecord JSValue.null)] (fun _ => none)
    [(some "c1", mkCourseRecord JSValue.null)] []
    (by
      intro r hr
      rw [List.mem_singleton] at hr
      rw [hr]
      rfl)
theorem c8_delete_then_insert_second_wins_witness :
    (writeRecord (some "k") (mkScoreDetailRecord (JSValue.str "b"))
        (writeRecord (some "k") (mkScoreDetailRecord (JSValue.str "a")) [])).filter
        (fun p => p.1 == some "k") =
      [(some "k", mkScoreDetailRecord (JSValue.str "b"))] :=
  c8_delete_then_insert_second_wins "k"
    (mkScoreDetailRecord (JSValue.str "a")) (mkScoreDetailRecord (JSValue.str "b")) []
    (by
      intro h
      have h2 : JSValue.str "a" = JSValue.str "b" :=
        congrArg ScoreDetailRecord.userId h
      injection h2 with h3
      exact absurd h3 (by decide))

